import Mathlib

/-!
Verification of the declarative tool-adapter engine of `src/graph-tools.ts`
(`registerGraphTools`): parameter binding, request synthesis, response
normalization and registration filtering, shallowly embedded in Lean.

JavaScript runtime values reaching the handler are modelled by `JsValue`;
`JSON.parse` (an external runtime facility whose exceptions the code
catches) is modelled by an explicit argument `jp : String → Option JsValue`
(`none` models a thrown `SyntaxError`).  Strings are Lean `String`s and all
string operations used by the code (`replace` with a string pattern,
`includes`, `endsWith`, `toUpperCase`, `toLowerCase`, `encodeURIComponent`,
`JSON.stringify`) are implemented below on the character list, following
the JavaScript semantics on the inputs the server handles (ASCII method
names, Unicode argument values).
-/

namespace GraphTools

/-- A JavaScript value as it reaches the tool handler after schema
validation: `null`, booleans, (integer) numbers, strings, arrays and
plain objects with insertion-ordered fields. -/
inductive JsValue where
  | null : JsValue
  | bool (b : Bool) : JsValue
  | num (n : Int) : JsValue
  | str (s : String) : JsValue
  | arr (items : List JsValue) : JsValue
  | obj (fields : List (String × JsValue)) : JsValue
  deriving Repr

/-! ### JavaScript string primitives -/

/-- First-occurrence replacement on character lists: the semantics of
JavaScript `String.prototype.replace` with a string pattern (an empty
pattern matches at position 0). -/
def listReplaceFirst : List Char → List Char → List Char → List Char
  | [], pat, rep => if pat.isEmpty then rep else []
  | c :: cs, pat, rep =>
    if pat.isPrefixOf (c :: cs) then rep ++ (c :: cs).drop pat.length
    else c :: listReplaceFirst cs pat rep

/-- JavaScript `s.replace(pat, rep)` for a string pattern: replaces only
the first occurrence (replacement-pattern characters cannot occur in the
URL-escaped values this code substitutes). -/
def replaceFirst (s pat rep : String) : String :=
  ⟨listReplaceFirst s.data pat.data rep.data⟩

/-- Substring test on character lists (JavaScript `String.prototype.includes`). -/
def listContainsSub : List Char → List Char → Bool
  | [], pat => pat.isEmpty
  | c :: cs, pat => pat.isPrefixOf (c :: cs) || listContainsSub cs pat

/-- JavaScript `s.includes(sub)`. -/
def strContains (s sub : String) : Bool :=
  listContainsSub s.data sub.data

/-- JavaScript `s.includes(c)` for a single-character needle. -/
def strContainsChar (s : String) (c : Char) : Bool :=
  s.data.contains c

/-- JavaScript `s.endsWith(t)`. -/
def strEndsWith (s t : String) : Bool :=
  t.data.isSuffixOf s.data

/-- JavaScript `s.toLowerCase()` (ASCII range, which covers every name the
code lowercases). -/
def jsToLower (s : String) : String :=
  ⟨s.data.map Char.toLower⟩

/-- JavaScript `s.toUpperCase()` (ASCII range, which covers the HTTP
method names the code uppercases). -/
def jsToUpper (s : String) : String :=
  ⟨s.data.map Char.toUpper⟩

/-- The characters `encodeURIComponent` leaves unescaped:
`A`–`Z`, `a`–`z`, `0`–`9` and `- _ . ! ~ * ' ( )`. -/
def uriUnreserved (c : Char) : Bool :=
  c.isAlphanum || [45, 95, 46, 33, 126, 42, 39, 40, 41].contains c.toNat

/-- UTF-8 byte sequence of one character (as `Nat`s below 256). -/
def utf8BytesOfChar (c : Char) : List Nat :=
  let n := c.toNat
  if n < 0x80 then [n]
  else if n < 0x800 then [0xC0 + n / 64, 0x80 + n % 64]
  else if n < 0x10000 then [0xE0 + n / 4096, 0x80 + n / 64 % 64, 0x80 + n % 64]
  else [0xF0 + n / 262144, 0x80 + n / 4096 % 64, 0x80 + n / 64 % 64, 0x80 + n % 64]

/-- Uppercase hexadecimal digit, as used by `encodeURIComponent`. -/
def hexDigitUpper (n : Nat) : Char :=
  if n < 10 then Char.ofNat (48 + n) else Char.ofNat (55 + n)

/-- `%XX` escape of one byte. -/
def percentEncodeByte (b : Nat) : List Char :=
  ['%', hexDigitUpper (b / 16), hexDigitUpper (b % 16)]

/-- JavaScript `encodeURIComponent`: unreserved characters pass through,
every other character is UTF-8 encoded and each byte written as `%XX`. -/
def encodeURIComponent (s : String) : String :=
  ⟨(s.data.map fun c =>
      if uriUnreserved c then [c]
      else ((utf8BytesOfChar c).map percentEncodeByte).flatten).flatten⟩

/-! ### JavaScript value stringification -/

mutual

/-- JavaScript string coercion `String(v)` / template-literal
interpolation, as applied by the handler to query, header and path
values (arrays join their elements with `,`, rendering `null` elements
as the empty string; plain objects render as `[object Object]`). -/
def jsToString : JsValue → String
  | .null => "null"
  | .bool true => "true"
  | .bool false => "false"
  | .num n => toString n
  | .str s => s
  | .arr items => arrToString items
  | .obj _ => "[object Object]"

/-- Element-joining of JavaScript `Array.prototype.toString`. -/
def arrToString : List JsValue → String
  | [] => ""
  | [v] => arrElemToString v
  | v :: vs => arrElemToString v ++ "," ++ arrToString vs

/-- One array element under `Array.prototype.toString`: `null` renders
as the empty string. -/
def arrElemToString : JsValue → String
  | .null => ""
  | v => jsToString v

end

/-- Lowercase hexadecimal digit, as used by `JSON.stringify` escapes. -/
def hexDigitLower (n : Nat) : Char :=
  if n < 10 then Char.ofNat (48 + n) else Char.ofNat (87 + n)

/-- `JSON.stringify` escaping of one character inside a string literal. -/
def escapeJsonChar (c : Char) : List Char :=
  if c.toNat = 34 then ['\\', '"']
  else if c.toNat = 92 then ['\\', '\\']
  else if c.toNat = 8 then ['\\', 'b']
  else if c.toNat = 9 then ['\\', 't']
  else if c.toNat = 10 then ['\\', 'n']
  else if c.toNat = 12 then ['\\', 'f']
  else if c.toNat = 13 then ['\\', 'r']
  else if c.toNat < 32 then
    ['\\', 'u', '0', '0', hexDigitLower (c.toNat / 16), hexDigitLower (c.toNat % 16)]
  else [c]

/-- A JSON string literal: quotes around the escaped character sequence. -/
def quoteJson (s : String) : String :=
  ⟨'"' :: (s.data.map escapeJsonChar).flatten ++ ['"']⟩

mutual

/-- JavaScript `JSON.stringify` on handler values (no `undefined` in the
model, so no field skipping arises). -/
def jsonStringify : JsValue → String
  | .null => "null"
  | .bool true => "true"
  | .bool false => "false"
  | .num n => toString n
  | .str s => quoteJson s
  | .arr items => "[" ++ jsonStringifyList items ++ "]"
  | .obj fields => "\x7b" ++ jsonStringifyFields fields ++ "\x7d"

/-- Comma-joined serialization of an array's elements. -/
def jsonStringifyList : List JsValue → String
  | [] => ""
  | [v] => jsonStringify v
  | v :: vs => jsonStringify v ++ "," ++ jsonStringifyList vs

/-- Comma-joined serialization of an object's fields. -/
def jsonStringifyFields : List (String × JsValue) → String
  | [] => ""
  | [(k, v)] => quoteJson k ++ ":" ++ jsonStringify v
  | (k, v) :: kvs => quoteJson k ++ ":" ++ jsonStringify v ++ "," ++ jsonStringifyFields kvs

end

/-- JavaScript truthiness of a handler value, as tested by
`if (options.method !== 'GET' && body)`. -/
def jsTruthy : JsValue → Bool
  | .null => false
  | .bool b => b
  | .num n => n != 0
  | .str s => s != ""
  | .arr _ => true
  | .obj _ => true

/-! ### Data model: catalog descriptors and invocation state -/

/-- The four transport locations of `param.type` in the generated
catalog (`'Path' | 'Query' | 'Header' | 'Body'`). -/
inductive ParamLocation where
  | path | query | header | body
  deriving Repr, DecidableEq, BEq

/-- One entry of `tool.parameters`: a named parameter routed to a
transport location.  The zod `schema` field only shapes the advertised
parameter schema, not the binding logic, and is omitted. -/
structure ParameterSpec where
  name : String
  type : ParamLocation
  deriving Repr, DecidableEq

/-- One entry of `tool.errors`: a known error-response description. -/
structure ErrorSpec where
  description : String
  deriving Repr, DecidableEq

/-- One endpoint descriptor of `api.endpoints` (the fields the handler
reads): alias, HTTP method, path template, parameter list and known
error descriptions (`tool.errors` absent in the source is the empty
list here). -/
structure EndpointTool where
  aliasName : String
  method : String
  path : String
  parameters : List ParameterSpec
  errors : List ErrorSpec
  deriving Repr, DecidableEq

/-- The mutable state of the binding loop: the path being rewritten,
the `queryParams` and `headers` objects (insertion-ordered), and the
single `body` slot (initially `null`). -/
structure BindState where
  path : String
  queryParams : List (String × String)
  headers : List (String × String)
  body : JsValue
  deriving Repr

/-- The options object handed to `graphClient.graphRequest`: method,
headers, optional serialized body and the two transport hints. -/
structure RequestOptions where
  method : String
  headers : List (String × String)
  body : Option String
  excelFile : Option String
  rawResponse : Bool
  deriving Repr, DecidableEq

/-- A synthesized request: final path (with query string) plus options. -/
structure SynthesizedRequest where
  path : String
  options : RequestOptions
  deriving Repr, DecidableEq

/-- One content item of a transport (`GraphClient`) response: a text
payload. -/
structure ResponseItem where
  text : String
  deriving Repr, DecidableEq

/-- A successful transport response: content items plus optional
metadata and error flag, which the handler carries through. -/
structure McpResponse where
  content : List ResponseItem
  meta : Option (List (String × JsValue))
  isError : Option Bool

/-- One content item of the envelope returned to the host. -/
structure ToolContent where
  type : String
  text : String
  deriving Repr, DecidableEq

/-- The `CallToolResult` envelope returned to the host. -/
structure CallToolResult where
  content : List ToolContent
  meta : Option (List (String × JsValue))
  isError : Option Bool

/-! ### Parameter Binder -/

/-- The fixed OData alias table of the handler. -/
def odataParams : List String :=
  ["filter", "select", "expand", "orderby", "skip", "top", "count", "search", "format"]

/-- Key fixup applied before storing query and header parameters:
names in the alias table (case-insensitively) are rewritten to the
`$`-prefixed lowercase reserved form, all other names pass through. -/
def fixedParamName (name : String) : String :=
  if odataParams.contains (jsToLower name) then "$" ++ jsToLower name else name

/-- JavaScript object assignment `o[k] = v`: an existing key keeps its
position and is overwritten, a new key is appended. -/
def upsert : List (String × String) → String → String → List (String × String)
  | [], k, v => [(k, v)]
  | (k0, v0) :: rest, k, v =>
    if k0 == k then (k0, v) :: rest else (k0, v0) :: upsert rest k v

/-- Body binding: a string value is opportunistically `JSON.parse`d,
falling back to the raw string when parsing throws; any other value is
used as-is. -/
def parseBody (jp : String → Option JsValue) : JsValue → JsValue
  | .str s =>
    match jp s with
    | some j => j
    | none => .str s
  | v => v

/-- One iteration of the binding loop over `Object.entries(params)`:
look up the parameter spec by exact name and route by location; an
unmatched argument named `body` is the legacy body path; any other
unmatched argument is dropped. -/
def bindStep (jp : String → Option JsValue) (specs : List ParameterSpec)
    (st : BindState) (arg : String × JsValue) : BindState :=
  let name := arg.1
  let v := arg.2
  match specs.find? (fun p => p.name == name) with
  | some p =>
    match p.type with
    | .path =>
      let enc := encodeURIComponent (jsToString v)
      { st with path := replaceFirst (replaceFirst st.path ("\x7b" ++ name ++ "\x7d") enc)
                          (":" ++ name) enc }
    | .query => { st with queryParams := upsert st.queryParams (fixedParamName name) (jsToString v) }
    | .body => { st with body := parseBody jp v }
    | .header => { st with headers := upsert st.headers (fixedParamName name) (jsToString v) }
  | none =>
    if name == "body" then { st with body := parseBody jp v } else st

/-- The whole binding loop, in argument enumeration order. -/
def bindArgs (jp : String → Option JsValue) (specs : List ParameterSpec)
    (st : BindState) (args : List (String × JsValue)) : BindState :=
  args.foldl (bindStep jp specs) st

/-- The loop's initial state for a descriptor. -/
def initState (tool : EndpointTool) : BindState :=
  { path := tool.path, queryParams := [], headers := [], body := .null }

/-- Binding an invocation's arguments against a descriptor. -/
def boundState (jp : String → Option JsValue) (tool : EndpointTool)
    (args : List (String × JsValue)) : BindState :=
  bindArgs jp tool.parameters (initState tool) args

/-! ### Request Synthesizer -/

/-- `&`-joined `key=value` rendering of the query parameters, both
sides percent-encoded. -/
def renderQuery (qp : List (String × String)) : String :=
  String.intercalate "&"
    (qp.map fun kv => encodeURIComponent kv.1 ++ "=" ++ encodeURIComponent kv.2)

/-- The final request path: the bound path, with the query string
appended after `?` (or `&` when the path already contains `?`) when any
query parameter was stored. -/
def resolvedPath (st : BindState) : String :=
  if st.queryParams.isEmpty then st.path
  else st.path ++ (if strContainsChar st.path '?' then "&" else "?") ++ renderQuery st.queryParams

/-- The marker of the Excel fixup's regular expression. -/
def excelMarker : String := "/me/drive/root:"

/-- Left-to-right scan of `/\/me\/drive\/root:([^:]+):/`: at each
position where the marker matches, capture the longest nonempty run of
non-colon characters, require a following colon, else resume scanning
one character further. -/
def excelScan : List Char → Option (List Char)
  | [] => none
  | c :: cs =>
    if excelMarker.data.isPrefixOf (c :: cs) then
      let rest := (c :: cs).drop excelMarker.data.length
      let seg := rest.takeWhile (fun ch => ch != ':')
      if seg.isEmpty then excelScan cs
      else if (rest.drop seg.length).isEmpty then excelScan cs
      else some seg
    else excelScan cs

/-- Fixup 1 (Excel session hint): for an alias containing `excel` and a
path containing `workbook`, the file path captured between the root
marker and the next colon, if the pattern matches. -/
def excelFileHint (tool : EndpointTool) (path : String) : Option String :=
  if strContains tool.aliasName "excel" && strContains path "workbook" then
    (excelScan path.data).map fun l => ⟨l⟩
  else none

/-- Fixup 2 (media detection): a known error description `Retrieved
media content`, or a path ending in `/content`, requests the raw
response form. -/
def isProbablyMediaContent (tool : EndpointTool) (path : String) : Bool :=
  tool.errors.any (fun e => e.description == "Retrieved media content")
    || strEndsWith path "/content"

/-- Body serialization for transport: a string body is sent as-is, any
other value is `JSON.stringify`ed. -/
def serializeBody : JsValue → String
  | .str s => s
  | v => jsonStringify v

/-- Request synthesis: bind the arguments, append the query string,
upper-case the method, attach the body only for non-GET methods and
truthy bound bodies, and apply the two fixups. -/
def synthesize (jp : String → Option JsValue) (tool : EndpointTool)
    (args : List (String × JsValue)) : SynthesizedRequest :=
  let st := boundState jp tool args
  let path := resolvedPath st
  let methodU := jsToUpper tool.method
  { path := path
    options :=
      { method := methodU
        headers := st.headers
        body := if methodU != "GET" && jsTruthy st.body then some (serializeBody st.body) else none
        excelFile := excelFileHint tool path
        rawResponse := isProbablyMediaContent tool path } }

/-! ### Response Normalizer and handler boundary -/

/-- Success normalization: each transport content item re-wrapped as a
text content item (text copied verbatim); metadata and error flag
carried through. -/
def successResult (resp : McpResponse) : CallToolResult :=
  { content := resp.content.map fun item => { type := "text", text := item.text }
    meta := resp.meta
    isError := resp.isError }

/-- The catch branch: a single text item whose text is the JSON
serialization of an object with an `error` field naming the tool. -/
def errorResult (toolAlias msg : String) : CallToolResult :=
  { content := [{ type := "text"
                  text := jsonStringify (.obj [("error", .str ("Error in tool " ++ toolAlias ++ ": " ++ msg))]) }]
    meta := none
    isError := some true }

/-- The whole registered handler for one catalog descriptor: synthesize
the request, dispatch it through the transport (an `Except.error`
models a thrown error anywhere in the dispatch), and normalize the
outcome.  The handler itself is total: it always returns an envelope. -/
def runTool (jp : String → Option JsValue) (tool : EndpointTool)
    (transport : SynthesizedRequest → Except String McpResponse)
    (args : List (String × JsValue)) : CallToolResult :=
  match transport (synthesize jp tool args) with
  | .ok resp => successResult resp
  | .error msg => errorResult tool.aliasName msg

/-! ### Tool Registrar -/

/-- The catalog descriptors that survive the read-only filter: in
read-only mode, descriptors whose upper-cased method is not `GET` are
skipped before registration. -/
def registeredEndpoints (endpoints : List EndpointTool) (readOnly : Bool) : List EndpointTool :=
  endpoints.filter fun t => !(readOnly && jsToUpper t.method != "GET")

/-- The three hand-authored tools registered after the catalog loop,
regardless of the read-only flag. -/
def fixedToolNames : List String :=
  ["debug-excel-access", "upload-file-to-onedrive", "create-empty-excel-file"]

/-- Every tool name registered by `registerGraphTools`. -/
def registeredToolNames (endpoints : List EndpointTool) (readOnly : Bool) : List String :=
  (registeredEndpoints endpoints readOnly).map (·.aliasName) ++ fixedToolNames

/-! ### Derived classifications of arguments -/

/-- An argument the binding loop acts on: its name matches a parameter
spec, or it is the legacy name `body`. -/
def relevantArg (specs : List ParameterSpec) (e : String × JsValue) : Bool :=
  specs.any (fun p => p.name == e.1) || e.1 == "body"

/-- An argument that writes the shared body slot: a `Body`-located
spec'd argument, or an unmatched argument named `body`. -/
def writesBody (specs : List ParameterSpec) (e : String × JsValue) : Bool :=
  match specs.find? (fun p => p.name == e.1) with
  | some p => p.type == ParamLocation.body
  | none => e.1 == "body"

/-! ### Concrete instances used to evaluate the model -/

/-- A `JSON.parse` model in which every parse throws. -/
def jpNone : String → Option JsValue := fun _ => none

/-- A `JSON.parse` model that parses the single document `[1]`. -/
def jpSample : String → Option JsValue :=
  fun s => if s = "[1]" then some (.arr [.num 1]) else none

/-- The spec's example descriptor: `GET /items/{id}` with one `Path`
parameter. -/
def getItemTool : EndpointTool :=
  { aliasName := "getItem", method := "GET", path := "/items/\x7bid\x7d"
    parameters := [{ name := "id", type := .path }], errors := [] }

/-- A descriptor with one `Query` parameter named `filter`. -/
def filterTool : EndpointTool :=
  { aliasName := "listThings", method := "GET", path := "/x"
    parameters := [{ name := "filter", type := .query }], errors := [] }

/-- A non-GET descriptor with one `Body` parameter. -/
def postTool : EndpointTool :=
  { aliasName := "sendThing", method := "POST", path := "/send"
    parameters := [{ name := "payload", type := .body }], errors := [] }

/-- A descriptor whose path template repeats the same placeholder. -/
def doubleTool : EndpointTool :=
  { aliasName := "getPair", method := "GET", path := "/items/\x7bid\x7d/\x7bid\x7d"
    parameters := [{ name := "id", type := .path }], errors := [] }

/-- A concrete successful transport response with one text item. -/
def respSample : McpResponse :=
  { content := [{ text := "hello" }], meta := none, isError := some false }

/-! ## Helper lemmas -/

theorem jsToString_str (s : String) : jsToString (.str s) = s := by
  simp [jsToString]

theorem bindStep_body_eq (jp : String → Option JsValue) (specs : List ParameterSpec)
    (st : BindState) (e : String × JsValue) :
    (bindStep jp specs st e).body =
      if writesBody specs e then parseBody jp e.2 else st.body := by
  unfold bindStep writesBody
  cases hf : specs.find? (fun p => p.name == e.1) with
  | none =>
    by_cases hb : e.1 == "body" <;> simp [hf, hb]
  | some p =>
    cases hp : p.type <;> simp [hf, hp] <;> rfl

theorem bindStep_irrelevant (jp : String → Option JsValue) (specs : List ParameterSpec)
    (st : BindState) (e : String × JsValue) (h : relevantArg specs e = false) :
    bindStep jp specs st e = st := by
  unfold relevantArg at h
  simp only [Bool.or_eq_false_iff] at h
  have hany := h.1
  rw [List.any_eq_false] at hany
  have hfind : specs.find? (fun p => p.name == e.1) = none :=
    List.find?_eq_none.mpr hany
  simp [bindStep, hfind, h.2]

theorem bindArgs_eq_filter_relevant (jp : String → Option JsValue)
    (specs : List ParameterSpec) (st : BindState) (args : List (String × JsValue)) :
    bindArgs jp specs st args = bindArgs jp specs st (args.filter (relevantArg specs)) := by
  induction args generalizing st with
  | nil => rfl
  | cons e rest ih =>
    by_cases hr : relevantArg specs e = true
    · show bindArgs jp specs (bindStep jp specs st e) rest = _
      rw [List.filter_cons, if_pos hr]
      show _ = bindArgs jp specs (bindStep jp specs st e) (rest.filter (relevantArg specs))
      exact ih (bindStep jp specs st e)
    · rw [List.filter_cons, if_neg hr]
      show bindArgs jp specs (bindStep jp specs st e) rest = _
      rw [bindStep_irrelevant jp specs st e (Bool.eq_false_iff.mpr hr)]
      exact ih st

/-! ## Claims -/

/-- Claim C3: with the read-only flag set, the catalog-derived
operations registered from any catalog are exactly its GET descriptors
(set equality): a descriptor is registered iff it is in the catalog and
its upper-cased method is `GET`, so every GET descriptor is registered
and no non-GET-derived operation is registered or listed. -/
theorem c3_readonly_exactly_get (endpoints : List EndpointTool) (t : EndpointTool) :
    t ∈ registeredEndpoints endpoints true ↔ t ∈ endpoints ∧ jsToUpper t.method = "GET" := by
  simp [registeredEndpoints, List.mem_filter]

/-- Claim C9: two argument maps that agree on the arguments matching a
parameter spec or named `body` (and may differ arbitrarily in all other
arguments) synthesize identical requests — unknown arguments are
silently dropped and never reach the transport; and an unmatched
argument named exactly `body` is bound as the Body parameter. -/
theorem c9_unknown_args_inert (jp : String → Option JsValue) (tool : EndpointTool)
    (a1 a2 : List (String × JsValue))
    (h : a1.filter (relevantArg tool.parameters) = a2.filter (relevantArg tool.parameters)) :
    synthesize jp tool a1 = synthesize jp tool a2 ∧
    (∀ st v, tool.parameters.find? (fun p => p.name == "body") = none →
      bindStep jp tool.parameters st ("body", v) = { st with body := parseBody jp v }) := by
  constructor
  · have hb : boundState jp tool a1 = boundState jp tool a2 := by
      unfold boundState
      rw [bindArgs_eq_filter_relevant, h, ← bindArgs_eq_filter_relevant]
    simp [synthesize, hb]
  · intro st v hf
    simp [bindStep, hf]

/-- Claim C10: every synthesized request carries at most one body: the
binding loop routes every Body-located argument and the legacy `body`
argument to the single shared body slot, so the bound body equals the
body value of the last body-writing argument in enumeration order (or
the initial `null` when there is none). -/
theorem c10_single_body_slot (jp : String → Option JsValue) (specs : List ParameterSpec)
    (st : BindState) (args : List (String × JsValue)) :
    (bindArgs jp specs st args).body =
      (match (args.filter (writesBody specs)).getLast? with
       | some e => parseBody jp e.2
       | none => st.body) := by
  induction args generalizing st with
  | nil => rfl
  | cons e rest ih =>
    show (bindArgs jp specs (bindStep jp specs st e) rest).body = _
    rw [ih (bindStep jp specs st e)]
    by_cases hw : writesBody specs e = true
    · rw [List.filter_cons, if_pos hw]
      cases hfl : rest.filter (writesBody specs) with
      | nil =>
        simp [bindStep_body_eq, hw]
      | cons y ys =>
        rw [List.getLast?_cons_cons]
        obtain ⟨z, hz⟩ := Option.isSome_iff_exists.mp
          (List.getLast?_isSome.mpr (List.cons_ne_nil y ys))
        rw [hz]
    · rw [List.filter_cons, if_neg hw]
      rw [bindStep_body_eq]
      simp [hw]

theorem c9_unknown_args_inert_witness :
    ([("unknown", JsValue.str "z"), ("id", JsValue.str "42")].filter
        (relevantArg getItemTool.parameters)
      = [("id", JsValue.str "42"), ("junk", JsValue.num 7)].filter
        (relevantArg getItemTool.parameters)) ∧
    synthesize jpNone getItemTool [("unknown", JsValue.str "z"), ("id", JsValue.str "42")]
      = synthesize jpNone getItemTool [("id", JsValue.str "42"), ("junk", JsValue.num 7)] :=
  ⟨rfl, (c9_unknown_args_inert jpNone getItemTool
    [("unknown", JsValue.str "z"), ("id", JsValue.str "42")]
    [("id", JsValue.str "42"), ("junk", JsValue.num 7)] rfl).1⟩

/-- Claim C1: whenever the dispatch of a catalog-derived operation
throws (modelled by the transport returning an error — the only
fallible step, since binding, synthesis and normalization are total),
the handler still returns normally, with an envelope whose `isError` is
true and whose content is exactly one text item, that item's text being
the JSON serialization of an object with an `error` field whose string
contains the operation's name. -/
theorem c1_error_envelope (jp : String → Option JsValue) (tool : EndpointTool)
    (transport : SynthesizedRequest → Except String McpResponse)
    (args : List (String × JsValue)) (msg : String)
    (h : transport (synthesize jp tool args) = .error msg) :
    runTool jp tool transport args =
      { content := [{ type := "text"
                      text := jsonStringify (.obj [("error",
                        .str ("Error in tool " ++ tool.aliasName ++ ": " ++ msg))]) }]
        meta := none
        isError := some true } ∧
    ∃ s1 s2, "Error in tool " ++ tool.aliasName ++ ": " ++ msg = s1 ++ tool.aliasName ++ s2 := by
  constructor
  · simp [runTool, h, errorResult]
  · exact ⟨"Error in tool ", ": " ++ msg, by rw [String.append_assoc, String.append_assoc]⟩

theorem c1_error_envelope_witness :
    (fun _ => (Except.error "boom" : Except String McpResponse))
        (synthesize jpNone getItemTool []) = Except.error "boom" ∧
    (runTool jpNone getItemTool (fun _ => Except.error "boom") [] =
      { content := [{ type := "text"
                      text := jsonStringify (.obj [("error",
                        .str ("Error in tool " ++ "getItem" ++ ": " ++ "boom"))]) }]
        meta := none
        isError := some true } ∧
    ∃ s1 s2, "Error in tool " ++ "getItem" ++ ": " ++ "boom" = s1 ++ "getItem" ++ s2) :=
  ⟨rfl, c1_error_envelope jpNone getItemTool (fun _ => Except.error "boom") [] "boom" rfl⟩

/-- Claim C4: an argument bound by a Body-located parameter spec and
supplied as a string is `JSON.parse`d: when the parse succeeds the
bound body is the parsed structured value, and when the parse throws
the bound body is the original string unchanged — binding never rejects
a body. -/
theorem c4_body_string_parse (jp : String → Option JsValue) (specs : List ParameterSpec)
    (st : BindState) (name : String) (p : ParameterSpec)
    (h : specs.find? (fun q => q.name == name) = some p) (hb : p.type = .body) :
    (∀ s j, jp s = some j → (bindStep jp specs st (name, JsValue.str s)).body = j) ∧
    (∀ s, jp s = none → (bindStep jp specs st (name, JsValue.str s)).body = JsValue.str s) := by
  constructor
  · intro s j hj
    simp [bindStep, h, hb, parseBody, hj]
  · intro s hn
    simp [bindStep, h, hb, parseBody, hn]

theorem c4_body_string_parse_witness :
    ([⟨"payload", ParamLocation.body⟩] : List ParameterSpec).find?
        (fun q => q.name == "payload") = some ⟨"payload", ParamLocation.body⟩ ∧
    (⟨"payload", ParamLocation.body⟩ : ParameterSpec).type = .body ∧
    jpSample "[1]" = some (JsValue.arr [JsValue.num 1]) ∧
    jpSample "not json" = none ∧
    (bindStep jpSample [⟨"payload", ParamLocation.body⟩] (initState postTool)
        ("payload", JsValue.str "[1]")).body = JsValue.arr [JsValue.num 1] ∧
    (bindStep jpSample [⟨"payload", ParamLocation.body⟩] (initState postTool)
        ("payload", JsValue.str "not json")).body = JsValue.str "not json" :=
  ⟨rfl, rfl, rfl, rfl,
    (c4_body_string_parse jpSample [⟨"payload", ParamLocation.body⟩] (initState postTool)
      "payload" ⟨"payload", ParamLocation.body⟩ rfl rfl).1 "[1]" (JsValue.arr [JsValue.num 1]) rfl,
    (c4_body_string_parse jpSample [⟨"payload", ParamLocation.body⟩] (initState postTool)
      "payload" ⟨"payload", ParamLocation.body⟩ rfl rfl).2 "not json" rfl⟩

/-- Claim C5: query and header arguments share the same key fixup: a
name matching the OData alias table case-insensitively is stored under
the `$`-prefixed lowercased reserved key, any other name is stored
unchanged. -/
theorem c5_odata_alias_rewrite (jp : String → Option JsValue) (specs : List ParameterSpec)
    (st : BindState) (name : String) (v : JsValue) (p : ParameterSpec)
    (h : specs.find? (fun q => q.name == name) = some p) :
    (p.type = .query → (bindStep jp specs st (name, v)).queryParams
        = upsert st.queryParams (fixedParamName name) (jsToString v)) ∧
    (p.type = .header → (bindStep jp specs st (name, v)).headers
        = upsert st.headers (fixedParamName name) (jsToString v)) ∧
    (odataParams.contains (jsToLower name) = true → fixedParamName name = "$" ++ jsToLower name) ∧
    (odataParams.contains (jsToLower name) = false → fixedParamName name = name) := by
  refine ⟨fun hq => ?_, fun hh => ?_, fun ho => ?_, fun ho => ?_⟩
  · simp [bindStep, h, hq]
  · simp [bindStep, h, hh]
  · simp only [fixedParamName]
    rw [ho]
    simp
  · simp only [fixedParamName]
    rw [ho]
    simp

theorem c5_odata_alias_rewrite_witness :
    ([⟨"Filter", ParamLocation.query⟩, ⟨"X-Custom", ParamLocation.header⟩]
        : List ParameterSpec).find? (fun q => q.name == "Filter")
      = some ⟨"Filter", ParamLocation.query⟩ ∧
    ([⟨"Filter", ParamLocation.query⟩, ⟨"X-Custom", ParamLocation.header⟩]
        : List ParameterSpec).find? (fun q => q.name == "X-Custom")
      = some ⟨"X-Custom", ParamLocation.header⟩ ∧
    (bindStep jpNone [⟨"Filter", ParamLocation.query⟩, ⟨"X-Custom", ParamLocation.header⟩]
        (initState filterTool) ("Filter", JsValue.str "a")).queryParams
      = upsert (initState filterTool).queryParams (fixedParamName "Filter")
          (jsToString (JsValue.str "a")) ∧
    (bindStep jpNone [⟨"Filter", ParamLocation.query⟩, ⟨"X-Custom", ParamLocation.header⟩]
        (initState filterTool) ("X-Custom", JsValue.str "b")).headers
      = upsert (initState filterTool).headers (fixedParamName "X-Custom")
          (jsToString (JsValue.str "b")) ∧
    fixedParamName "Filter" = "$" ++ jsToLower "Filter" ∧
    fixedParamName "X-Custom" = "X-Custom" :=
  ⟨rfl, rfl,
    (c5_odata_alias_rewrite jpNone [⟨"Filter", ParamLocation.query⟩,
      ⟨"X-Custom", ParamLocation.header⟩] (initState filterTool) "Filter" (JsValue.str "a")
      ⟨"Filter", ParamLocation.query⟩ rfl).1 rfl,
    (c5_odata_alias_rewrite jpNone [⟨"Filter", ParamLocation.query⟩,
      ⟨"X-Custom", ParamLocation.header⟩] (initState filterTool) "X-Custom" (JsValue.str "b")
      ⟨"X-Custom", ParamLocation.header⟩ rfl).2.1 rfl,
    (c5_odata_alias_rewrite jpNone [⟨"Filter", ParamLocation.query⟩,
      ⟨"X-Custom", ParamLocation.header⟩] (initState filterTool) "Filter" (JsValue.str "a")
      ⟨"Filter", ParamLocation.query⟩ rfl).2.2.1 rfl,
    (c5_odata_alias_rewrite jpNone [⟨"Filter", ParamLocation.query⟩,
      ⟨"X-Custom", ParamLocation.header⟩] (initState filterTool) "X-Custom" (JsValue.str "b")
      ⟨"X-Custom", ParamLocation.header⟩ rfl).2.2.2 rfl⟩

/-- Claim C2 fails as stated: invoking `filterTool` with
`filter = "a eq 1"` yields the query string `%24filter=a%20eq%201` —
the `$` of the rewritten key is itself percent-encoded by
`encodeURIComponent` — not the claimed `$filter=a%20eq%201`. -/
theorem c2_query_example_counterexample :
    (synthesize jpNone filterTool [("filter", JsValue.str "a eq 1")]).path
      = "/x?%24filter=a%20eq%201" ∧
    (synthesize jpNone filterTool [("filter", JsValue.str "a eq 1")]).path
      ≠ "/x?$filter=a%20eq%201" := by
  have h : (synthesize jpNone filterTool [("filter", JsValue.str "a eq 1")]).path
      = "/x?%24filter=a%20eq%201" := by
    simp [synthesize, boundState, bindArgs, bindStep, initState, parseBody, fixedParamName,
      jsToLower, odataParams, upsert, resolvedPath, renderQuery, strContainsChar,
      encodeURIComponent, utf8BytesOfChar, percentEncodeByte, hexDigitUpper,
      uriUnreserved, filterTool, jsToString_str]
    decide
  exact ⟨h, by rw [h]; decide⟩

/-- Claim C2 (amended): each query pair is rendered as `key=value` with
both key and value percent-encoded, pairs joined by `&` and appended
with `?` (or `&` if the path already contains `?`); the `filter`
example therefore produces the query string `%24filter=a%20eq%201`
(the `$` of the rewritten key is itself percent-encoded). -/
theorem c2_query_rendering :
    (∀ (jp : String → Option JsValue) (tool : EndpointTool) (args : List (String × JsValue)),
      (boundState jp tool args).queryParams ≠ [] →
      (synthesize jp tool args).path =
        (boundState jp tool args).path ++
          (if strContainsChar (boundState jp tool args).path '?' then "&" else "?") ++
          String.intercalate "&" ((boundState jp tool args).queryParams.map
            (fun kv => encodeURIComponent kv.1 ++ "=" ++ encodeURIComponent kv.2))) ∧
    (synthesize jpNone filterTool [("filter", JsValue.str "a eq 1")]).path
      = "/x?%24filter=a%20eq%201" := by
  constructor
  · intro jp tool args hne
    simp [synthesize, resolvedPath, renderQuery, List.isEmpty_iff, hne]
  · simp [synthesize, boundState, bindArgs, bindStep, initState, parseBody, fixedParamName,
      jsToLower, odataParams, upsert, resolvedPath, renderQuery, strContainsChar,
      encodeURIComponent, utf8BytesOfChar, percentEncodeByte, hexDigitUpper,
      uriUnreserved, filterTool, jsToString_str]
    decide

theorem c2_query_rendering_witness :
    (boundState jpNone filterTool [("filter", JsValue.str "a eq 1")]).queryParams ≠ [] ∧
    (synthesize jpNone filterTool [("filter", JsValue.str "a eq 1")]).path =
      (boundState jpNone filterTool [("filter", JsValue.str "a eq 1")]).path ++
        (if strContainsChar (boundState jpNone filterTool
            [("filter", JsValue.str "a eq 1")]).path '?' then "&" else "?") ++
        String.intercalate "&" ((boundState jpNone filterTool
            [("filter", JsValue.str "a eq 1")]).queryParams.map
          (fun kv => encodeURIComponent kv.1 ++ "=" ++ encodeURIComponent kv.2)) :=
  ⟨by decide, c2_query_rendering.1 jpNone filterTool
    [("filter", JsValue.str "a eq 1")] (by decide)⟩

/-- Claim C6 fails as stated: `replace` with a string pattern only
substitutes the first occurrence, so a template repeating a placeholder
keeps an unresolved placeholder for a supplied Path parameter:
`/items/{id}/{id}` invoked with `id = "42"` resolves to
`/items/42/{id}`, which still contains `{id}`. -/
theorem c6_path_counterexample :
    (synthesize jpNone doubleTool [("id", JsValue.str "42")]).path
      = "/items/42/\x7bid\x7d" ∧
    strContains (synthesize jpNone doubleTool [("id", JsValue.str "42")]).path
      "\x7bid\x7d" = true := by
  have h : (synthesize jpNone doubleTool [("id", JsValue.str "42")]).path
      = "/items/42/\x7bid\x7d" := by
    simp [synthesize, boundState, bindArgs, bindStep, initState, parseBody, replaceFirst,
      listReplaceFirst, resolvedPath, upsert, doubleTool, jsToString_str,
      encodeURIComponent, utf8BytesOfChar, percentEncodeByte, hexDigitUpper, uriUnreserved]
  exact ⟨h, by rw [h]; decide⟩

/-- Claim C6 (amended): a supplied Path parameter replaces the first
occurrence of the `{name}` form and then the first occurrence of the
`:name` form of its placeholder with the URL-escaped value (later
duplicate occurrences are left unresolved); in particular `getItem`
with path `/items/{id}` invoked with `id = "42"` requests `/items/42`
with no body. -/
theorem c6_path_substitution :
    (∀ (jp : String → Option JsValue) (specs : List ParameterSpec) (st : BindState)
        (name : String) (v : JsValue) (p : ParameterSpec),
      specs.find? (fun q => q.name == name) = some p → p.type = .path →
      (bindStep jp specs st (name, v)).path =
        replaceFirst
          (replaceFirst st.path ("\x7b" ++ name ++ "\x7d") (encodeURIComponent (jsToString v)))
          (":" ++ name) (encodeURIComponent (jsToString v))) ∧
    synthesize jpNone getItemTool [("id", JsValue.str "42")] =
      { path := "/items/42"
        options := { method := "GET", headers := [], body := none
                     excelFile := none, rawResponse := false } } := by
  constructor
  · intro jp specs st name v p h hp
    simp [bindStep, h, hp]
  · simp [synthesize, boundState, bindArgs, bindStep, initState, parseBody, replaceFirst,
      listReplaceFirst, resolvedPath, upsert, getItemTool, jsToString_str,
      encodeURIComponent, utf8BytesOfChar, percentEncodeByte, hexDigitUpper, uriUnreserved,
      jsToUpper, jsTruthy, excelFileHint, strContains, listContainsSub,
      isProbablyMediaContent, strEndsWith, strContainsChar]
    decide

theorem c6_path_substitution_witness :
    (([{ name := "id", type := ParamLocation.path }] : List ParameterSpec).find?
        (fun q => q.name == "id") = some { name := "id", type := ParamLocation.path }) ∧
    ({ name := "id", type := ParamLocation.path } : ParameterSpec).type = .path ∧
    (bindStep jpNone [{ name := "id", type := ParamLocation.path }] (initState getItemTool)
        ("id", JsValue.str "42")).path =
      replaceFirst
        (replaceFirst (initState getItemTool).path ("\x7b" ++ "id" ++ "\x7d")
          (encodeURIComponent (jsToString (JsValue.str "42"))))
        (":" ++ "id") (encodeURIComponent (jsToString (JsValue.str "42"))) :=
  ⟨rfl, rfl, c6_path_substitution.1 jpNone [{ name := "id", type := ParamLocation.path }]
    (initState getItemTool) "id" (JsValue.str "42")
    { name := "id", type := ParamLocation.path } rfl rfl⟩

/-- Claim C7 fails as stated: attachment is a JavaScript truthiness
test, not a null test.  A `POST` with its Body parameter supplied as
the empty string (which `JSON.parse` rejects, so the bound body is the
empty string — non-null) attaches no body at all. -/
theorem c7_attach_counterexample :
    (boundState jpNone postTool [("payload", JsValue.str "")]).body ≠ JsValue.null ∧
    jsToUpper postTool.method ≠ "GET" ∧
    (synthesize jpNone postTool [("payload", JsValue.str "")]).options.body = none := by
  refine ⟨?_, by decide, by decide⟩
  have h : (boundState jpNone postTool [("payload", JsValue.str "")]).body
      = JsValue.str "" := by
    simp [boundState, bindArgs, bindStep, initState, parseBody, jpNone, postTool]
  rw [h]
  intro hc
  exact JsValue.noConfusion hc

/-- Claim C7 (amended): a body is attached to the synthesized request
iff the upper-cased method is not `GET` and the bound body value is
truthy (so a bound `null`, empty string, `false` or `0` attaches
nothing); when attached, a string body is sent as-is and a non-string
body is JSON-serialized. -/
theorem c7_body_attachment (jp : String → Option JsValue) (tool : EndpointTool)
    (args : List (String × JsValue)) :
    ((synthesize jp tool args).options.body ≠ none ↔
      (jsToUpper tool.method ≠ "GET" ∧ jsTruthy (boundState jp tool args).body = true)) ∧
    (jsToUpper tool.method ≠ "GET" → jsTruthy (boundState jp tool args).body = true →
      (synthesize jp tool args).options.body
        = some (serializeBody (boundState jp tool args).body)) ∧
    (∀ s, serializeBody (JsValue.str s) = s) ∧
    (∀ v, (∀ s, v ≠ JsValue.str s) → serializeBody v = jsonStringify v) := by
  have hbody : (synthesize jp tool args).options.body =
      (if (jsToUpper tool.method != "GET" && jsTruthy (boundState jp tool args).body) = true
       then some (serializeBody (boundState jp tool args).body) else none) := rfl
  refine ⟨?_, fun hm ht => ?_, fun s => ?_, fun v hv => ?_⟩
  · rw [hbody]
    by_cases hc : (jsToUpper tool.method != "GET" && jsTruthy (boundState jp tool args).body)
        = true
    · rw [if_pos hc]
      rw [Bool.and_eq_true, bne_iff_ne] at hc
      simp [hc]
    · rw [if_neg hc]
      constructor
      · intro hne
        exact absurd rfl hne
      · rintro ⟨hm, ht⟩
        exact absurd (by rw [Bool.and_eq_true, bne_iff_ne]; exact ⟨hm, ht⟩) hc
  · rw [hbody, if_pos (by rw [Bool.and_eq_true, bne_iff_ne]; exact ⟨hm, ht⟩)]
  · simp [serializeBody]
  · cases v with
    | str s => exact absurd rfl (hv s)
    | null => simp [serializeBody]
    | bool b => simp [serializeBody]
    | num n => simp [serializeBody]
    | arr items => simp [serializeBody]
    | obj fields => simp [serializeBody]

theorem c7_body_attachment_witness :
    jsToUpper postTool.method ≠ "GET" ∧
    jsTruthy (boundState jpNone postTool [("payload", JsValue.str "x")]).body = true ∧
    (synthesize jpNone postTool [("payload", JsValue.str "x")]).options.body
      = some (serializeBody (boundState jpNone postTool [("payload", JsValue.str "x")]).body) :=
  ⟨by decide, by decide,
    (c7_body_attachment jpNone postTool [("payload", JsValue.str "x")]).2.1
      (by decide) (by decide)⟩

/-- Claim C8: on a successful transport response the envelope's content
re-wraps the response's content items as text items of the same length
and order with text copied verbatim, the metadata and error flag are
carried through unchanged (the diagnostic inspection of the payload is
logging-only and alters nothing), and — given the transport adapter's
contract of non-empty content on success — the returned content list is
non-empty. -/
theorem c8_success_normalization (jp : String → Option JsValue) (tool : EndpointTool)
    (transport : SynthesizedRequest → Except String McpResponse)
    (args : List (String × JsValue)) (resp : McpResponse)
    (h : transport (synthesize jp tool args) = .ok resp)
    (hne : resp.content ≠ []) :
    (runTool jp tool transport args).content.map (·.text) = resp.content.map (·.text) ∧
    (runTool jp tool transport args).content.length = resp.content.length ∧
    (∀ item ∈ (runTool jp tool transport args).content, item.type = "text") ∧
    (runTool jp tool transport args).meta = resp.meta ∧
    (runTool jp tool transport args).isError = resp.isError ∧
    (runTool jp tool transport args).content ≠ [] := by
  refine ⟨?_, ?_, ?_, ?_, ?_, ?_⟩
  · simp [runTool, h, successResult, List.map_map, Function.comp]
  · simp [runTool, h, successResult]
  · intro item hitem
    simp [runTool, h, successResult] at hitem
    obtain ⟨x, _, hx⟩ := hitem
    rw [← hx]
  · simp [runTool, h, successResult]
  · simp [runTool, h, successResult]
  · simp [runTool, h, successResult, hne]

theorem c8_success_normalization_witness :
    (fun _ => (Except.ok respSample : Except String McpResponse))
        (synthesize jpNone getItemTool []) = Except.ok respSample ∧
    respSample.content ≠ [] ∧
    (runTool jpNone getItemTool (fun _ => Except.ok respSample) []).content.map (·.text)
      = respSample.content.map (·.text) ∧
    (runTool jpNone getItemTool (fun _ => Except.ok respSample) []).meta = respSample.meta ∧
    (runTool jpNone getItemTool (fun _ => Except.ok respSample) []).isError
      = respSample.isError ∧
    (runTool jpNone getItemTool (fun _ => Except.ok respSample) []).content ≠ [] :=
  ⟨rfl, by decide,
    (c8_success_normalization jpNone getItemTool (fun _ => Except.ok respSample) []
      respSample rfl (by decide)).1,
    (c8_success_normalization jpNone getItemTool (fun _ => Except.ok respSample) []
      respSample rfl (by decide)).2.2.2.1,
    (c8_success_normalization jpNone getItemTool (fun _ => Except.ok respSample) []
      respSample rfl (by decide)).2.2.2.2.1,
    (c8_success_normalization jpNone getItemTool (fun _ => Except.ok respSample) []
      respSample rfl (by decide)).2.2.2.2.2⟩

end GraphTools
